import Mathlib

/-!
Shallow embedding of `src/include/maxima_server.py` (class `MaximaServer`)
and proofs about its behaviour.

Conventions of the embedding:
* Python machine state that matters to the claims (instance attributes)
  becomes an explicit Lean structure; methods become functions on it.
* OS interaction is abstracted by explicit parameters: `bindable` models
  which TCP ports a bind probe would succeed on, `which` models
  `shutil.which`, and `polls` models the stream of results of
  `get_response(block=True, timeout=1)` during the readiness loop.
* A Python exception escaping a method is an `Except .error`; a call of
  `exit(2)` is modelled by a dedicated result constructor.
-/

namespace MaximaPie

/-- Python exceptions that the embedded code can raise. -/
inductive PyError where
  | fileNotFoundError
  | attributeError
  | typeError
  | unicodeDecodeError
  deriving DecidableEq, Repr

/-- An element of a Python tuple passed as `port_range`: either an `int`
or a value of some other type (`isinstance(x, int)` false). -/
inductive PortElem where
  | int (n : Int)
  | nonint
  deriving DecidableEq, Repr

/-- The `port_range` argument of `MaximaServer.__init__` /
`_select_free_port`: a single `int` or a tuple. -/
inductive PortArg where
  | int (n : Int)
  | tuple (xs : List PortElem)
  deriving DecidableEq, Repr

/-- Outcome of `MaximaServer._select_free_port`:
* `ok p` — the method returns port `p`;
* `exitNoFreePort` — it logs the no-free-port message and calls `exit(2)`;
* `exitInvalidRange` — it logs an invalid-range message and calls `exit(2)`;
* `typeError` — an uncaught `TypeError` escapes the method.  This happens
  in the single-`int` branch on bind failure: the source formats
  `f"Port {port_range[0]} is already in use"`, subscripting an `int`,
  which raises `TypeError` before `exit(2)` is reached. -/
inductive SelectResult where
  | ok (port : Int)
  | exitNoFreePort
  | exitInvalidRange
  | typeError
  deriving DecidableEq, Repr

/-- The probe loop `for port in range(lo, hi): try bind` of
`_select_free_port`, returning the first port the probe binds.
`n` is the number of remaining candidates, starting at `lo`; each probe
socket is opened and closed by the `with` block, so bindability of later
ports is unaffected (captured by `bindable` being a fixed function). -/
def firstFreePort (bindable : Int → Bool) : Int → Nat → Option Int
  | _, 0 => none
  | lo, n + 1 => if bindable lo then some lo else firstFreePort bindable (lo + 1) n

/-- `MaximaServer._select_free_port(port_range, host)` (lines 70-109).
`bindable p` abstracts whether `socket.bind((host, p))` succeeds. -/
def select_free_port (bindable : Int → Bool) (port_range : PortArg) : SelectResult :=
  match port_range with
  | .int p =>
      -- `if isinstance(port_range, int)`: one bind probe; on `OSError` the
      -- log f-string subscripts the int (`port_range[0]`) raising TypeError.
      if bindable p then .ok p else .typeError
  | .tuple xs =>
      -- `elif len(port_range) != 2`
      if xs.length ≠ 2 then .exitInvalidRange
      else
        match xs with
        | [.int lo, .int hi] =>
            -- `for port in range(port_range[0], port_range[1])`
            match firstFreePort bindable lo (hi - lo).toNat with
            | some p => .ok p
            | none => .exitNoFreePort
        | _ => .exitInvalidRange

/-- A `port_range` value accepted by `_select_free_port` without the
invalid-range exit: a single integer or a two-element tuple of integers. -/
def wellFormedRange : PortArg → Bool
  | .int _ => true
  | .tuple [.int _, .int _] => true
  | .tuple _ => false

/-- Whether byte `b` is a UTF-8 continuation byte (`10xxxxxx`). -/
def isContByte (b : UInt8) : Bool := b &&& 0xc0 == 0x80

/-- Strict UTF-8 decoding of a byte list into characters.  Models the
runtime primitive behind `data.decode("utf-8")` in `_handle_client`
(CPython strict mode): rejects invalid start bytes, truncated sequences,
overlong encodings, surrogate code points and values above `0x10FFFF`. -/
def utf8Decode : List UInt8 → Option (List Char)
  | [] => some []
  | b :: rest =>
      if b &&& 0x80 == 0 then
        (utf8Decode rest).map (fun cs => Char.ofNat b.toNat :: cs)
      else if b &&& 0xe0 == 0xc0 then
        match rest with
        | b1 :: rest1 =>
            if isContByte b1 then
              let r : Nat := ((b.toNat &&& 0x1f) <<< 6) ||| (b1.toNat &&& 0x3f)
              if 0x80 ≤ r then (utf8Decode rest1).map (fun cs => Char.ofNat r :: cs)
              else none
            else none
        | _ => none
      else if b &&& 0xf0 == 0xe0 then
        match rest with
        | b1 :: b2 :: rest2 =>
            if isContByte b1 && isContByte b2 then
              let r : Nat := ((b.toNat &&& 0x0f) <<< 12) |||
                ((b1.toNat &&& 0x3f) <<< 6) ||| (b2.toNat &&& 0x3f)
              if 0x800 ≤ r ∧ (r < 0xd800 ∨ 0xdfff < r) then
                (utf8Decode rest2).map (fun cs => Char.ofNat r :: cs)
              else none
            else none
        | _ => none
      else if b &&& 0xf8 == 0xf0 then
        match rest with
        | b1 :: b2 :: b3 :: rest3 =>
            if isContByte b1 && isContByte b2 && isContByte b3 then
              let r : Nat := ((b.toNat &&& 0x07) <<< 18) |||
                ((b1.toNat &&& 0x3f) <<< 12) |||
                ((b2.toNat &&& 0x3f) <<< 6) ||| (b3.toNat &&& 0x3f)
              if 0x10000 ≤ r ∧ r < 0x110000 then
                (utf8Decode rest3).map (fun cs => Char.ofNat r :: cs)
              else none
            else none
        | _ => none
      else none

/-- `data.decode("utf-8")` on a byte chunk, as a `String`. -/
def bytes_decode_utf8 (data : List UInt8) : Option String :=
  (utf8Decode data).map String.mk

/-- The dict `{"address": ..., "command": ..., "response": ...}` that
`_handle_client` puts on `self.response_queue` (lines 129-133).
The peer address is the `(host, port)` pair `socket.accept` produced. -/
structure ResponseEnvelope where
  address : String × Int
  command : String
  response : String
  deriving DecidableEq, Repr

/-- `MaximaServer._default_handler` (lines 48-50). -/
def default_handler (command : String) : String := "Received: " ++ command

/-- One iteration of the receive loop of `MaximaServer._handle_client`
(lines 116-141) after `client_socket.recv(4096)` returned `data`.
Result `.ok (published, sent)`:
* `published` — envelopes put on `response_queue` by this iteration;
* `sent` — byte chunks written back to the peer socket (always `[]`:
  the `client_socket.send(...)` line 136 is commented out).
An empty `data` means the peer closed; the loop breaks, publishing
nothing.  A chunk that is not valid UTF-8 makes `data.decode("utf-8")`
raise `UnicodeDecodeError`, which none of the `except` clauses
(`socket.timeout`, `ConnectionResetError`, `BrokenPipeError`) catch, so
the exception escapes the loop and kills the session thread. -/
def handle_chunk (handler : String → String) (address : String × Int)
    (data : List UInt8) : Except PyError (List ResponseEnvelope × List (List UInt8)) :=
  if data.isEmpty then .ok ([], [])
  else
    match bytes_decode_utf8 data with
    | none => .error .unicodeDecodeError
    | some txt =>
        let command := txt.trim
        let response := handler command
        .ok ([{ address := address, command := command, response := response }], [])

/-- `queue.Queue.put` on the response queue: FIFO, new items at the back. -/
def publish (q : List ResponseEnvelope) (e : ResponseEnvelope) : List ResponseEnvelope :=
  q ++ [e]

/-- `MaximaServer.get_response(block=False)` (lines 163-174): a
non-blocking `queue.get`, returning `None` when the queue is empty
(the `queue.Empty` exception is caught and turned into `None`). -/
def get_response_nonblocking (q : List ResponseEnvelope) :
    Option ResponseEnvelope × List ResponseEnvelope :=
  match q with
  | [] => (none, q)
  | e :: rest => (some e, rest)

/-- `MaximaServer.get_all_responses` (lines 176-184): loop
`item = get_response(block=False); if item is None: break; append`.
Since the non-blocking get returns `None` exactly on the empty queue and
otherwise pops the front, the loop is structural recursion on the queue.
Returns the collected results and the remaining queue. -/
def get_all_responses (q : List ResponseEnvelope) :
    List ResponseEnvelope × List ResponseEnvelope :=
  match q with
  | [] => ([], [])
  | e :: rest =>
      let rec_ := get_all_responses rest
      (e :: rec_.1, rec_.2)

/-- Line 11: `is_max_prompt = re.compile(r"(%i1)")`, used in the
readiness loop as `is_max_prompt.match(response["response"])`.
In the regex the parentheses delimit a capture group, so the literal
text matched is `%i1`; and `re.match` anchors at the start of the
string, so the whole test is: does the response text start with `%i1`. -/
def is_max_prompt_match (s : String) : Bool :=
  List.isPrefixOf "%i1".data s.data

/-- Outcome of the readiness loop of `start_instance` (lines 220-237):
* `readyAfter n` — the `while` loop exited normally with
  `maxima_status == "READY"` after `n` polls of the response queue;
* `fatalExit n finalStatus` — the loop executed `exit(2)` because the
  wait counter exceeded 10, after `n` polls, with `maxima_status` equal
  to `finalStatus` at that moment. -/
inductive ReadinessOutcome where
  | readyAfter (polls : Nat)
  | fatalExit (polls : Nat) (finalStatus : String)
  deriving DecidableEq, Repr

/-- Lines 225-233 of the loop body: `if response is not None: ... if
is_max_prompt.match(response["response"]): self.maxima_status = "READY"`.
Returns the value of `self.maxima_status` after this fragment. -/
def readiness_update (status : String) (response : Option ResponseEnvelope) : String :=
  match response with
  | some env => if is_max_prompt_match env.response then "READY" else status
  | none => status

/-- The `while self.maxima_status != "READY"` loop of `start_instance`
(lines 222-237).  `polls i` is the result of the i-th call of
`self.get_response(block=True, timeout=1)` (`none` when the queue stayed
empty for the timeout); `status` is `self.maxima_status`; `wait_time`
is the counter, which indexes the polls since it is incremented exactly
once per iteration starting from 0.  The `time.sleep(1)` has no
observable effect in the model. -/
def readiness_loop (polls : Nat → Option ResponseEnvelope)
    (status : String) (wait_time : Nat) : ReadinessOutcome :=
  if status = "READY" then .readyAfter wait_time
  else
    let status1 := readiness_update status (polls wait_time)
    if h : wait_time + 1 > 10 then .fatalExit (wait_time + 1) status1
    else readiness_loop polls status1 (wait_time + 1)
  termination_by 11 - wait_time
  decreasing_by omega

/-- The readiness protocol as `start_instance` runs it: status starts at
`"INIT"` (line 220), counter at 0 (line 221). -/
def start_instance_readiness (polls : Nat → Option ResponseEnvelope) : ReadinessOutcome :=
  readiness_loop polls "INIT" 0

/-- Whether a poll result is an envelope whose response the prompt
regex matches. -/
def respMatches : Option ResponseEnvelope → Bool
  | some env => is_max_prompt_match env.response
  | none => false

/-- Whether the i-th poll of the readiness loop dequeued an envelope
whose response the prompt regex matches. -/
def pollMatches (polls : Nat → Option ResponseEnvelope) (i : Nat) : Bool :=
  respMatches (polls i)

/-- A listening socket object; `closed` is set by `socket.close()`.
A closed socket object is still truthy in Python, so
`if self.server_socket:` does not distinguish closed from open. -/
structure Sock where
  closed : Bool
  deriving DecidableEq, Repr

/-- The instance attributes of `MaximaServer` relevant to the claims.
`server_thread_attr` models the attribute named `_server_thread`:
`none` means the attribute was never assigned (reading it raises
`AttributeError`); `some ()` means `_create_server_socket` assigned a
`threading.Thread` object to it (a `Thread` is always truthy).  The
constructor (line 27) assigns the differently named public attribute
`server_thread`, not `_server_thread`. -/
structure MaximaServerState where
  port_range : PortArg
  host : String
  server_socket : Option Sock
  server_thread : Option Unit
  server_running : Bool
  port : Option Int
  maxima_path : String
  maxima_status : Option String
  response_queue : List ResponseEnvelope
  server_thread_attr : Option Unit
  deriving DecidableEq, Repr

/-- `MaximaServer.__init__` (lines 14-46) followed by the
`_valid_maxima_path` check it performs at line 41.  `which` models
`shutil.which`.  If `which` cannot resolve the configured path,
`_valid_maxima_path` raises `FileNotFoundError` out of the constructor;
otherwise it replaces `self.maxima_path` with the resolved path
(line 67: `self.maxima_path = shutil.which(self.maxima_path)`; the
source calls `shutil.which` twice with the same argument, modelled as
one call).  Note that `__init__` performs no validation at all of
`port_range`; it only stores it (line 24). -/
def maxima_server_init (which : String → Option String) (port_range : PortArg)
    (host : String) (maxima_path : String) : Except PyError MaximaServerState :=
  match which maxima_path with
  | none => .error .fileNotFoundError
  | some resolved =>
      .ok { port_range := port_range
            host := host
            server_socket := none
            server_thread := none
            server_running := false
            port := none
            maxima_path := resolved
            maxima_status := none
            response_queue := []
            server_thread_attr := none }

/-- `MaximaServer.stop` (lines 186-193).  Runs, in order:
`self.server_running = False`; `if self.server_socket:
self.server_socket.close()` (closing is idempotent and a closed socket
object is still truthy); `if self._server_thread:
self._server_thread.join(timeout=2.0)`.  Reading `self._server_thread`
raises `AttributeError` when `_create_server_socket` never assigned it.
Result: the updated state together with the join timeout (in seconds)
that was passed to `Thread.join`, or `none` if no join happened. -/
def stop (s : MaximaServerState) : Except PyError (MaximaServerState × Option Nat) :=
  let s1 := { s with server_running := false }
  let s2 :=
    match s1.server_socket with
    | some sock => { s1 with server_socket := some { sock with closed := true } }
    | none => s1
  match s2.server_thread_attr with
  | none => .error .attributeError
  | some _ => .ok (s2, some 2)

/-- `MaximaServer._create_server_socket` (lines 195-206): selects a port
via `_select_free_port`, binds a fresh listening socket, sets
`server_running = True`, and assigns the `_server_thread` attribute with
the started acceptor thread.  `none` models the process exiting (or the
`TypeError` escaping) inside `_select_free_port`. -/
def create_server_socket (bindable : Int → Bool) (s : MaximaServerState) :
    Option MaximaServerState :=
  match select_free_port bindable s.port_range with
  | .ok p =>
      some { s with port := some p
                    server_socket := some { closed := false }
                    server_running := true
                    server_thread_attr := some () }
  | _ => none

/-- What one iteration of `MaximaServer._accept_loop` (lines 146-161)
does before any client arrives. -/
inductive AcceptStep where
  | exitLoop
  | acceptClient
  deriving DecidableEq, Repr

/-- One iteration of `_accept_loop`: the `while self.server_running`
condition ends the loop when the flag is cleared; `accept()` on a closed
socket raises `OSError`, caught by the `except OSError: break` clause,
also ending the loop.  Otherwise the loop blocks in `accept()` waiting
for a client (`acceptClient`). -/
def accept_step (s : MaximaServerState) : AcceptStep :=
  if s.server_running then
    match s.server_socket with
    | some sock => if sock.closed then .exitLoop else .acceptClient
    | none => .exitLoop
  else .exitLoop

/-- Does `needle` occur as a contiguous substring of `hay`?  Used to
state what a search-anywhere readiness test would be. -/
def substrContains (needle : List Char) : List Char → Bool
  | [] => List.isPrefixOf needle []
  | c :: t => List.isPrefixOf needle (c :: t) || substrContains needle t

/-! ### Helper lemmas -/

/-- If some candidate among the `n` ports starting at `lo` is bindable,
the probe loop returns the least bindable port of that window. -/
lemma firstFreePort_spec (bindable : Int → Bool) :
    ∀ (n : Nat) (lo : Int), (∃ k : Nat, k < n ∧ bindable (lo + k) = true) →
      ∃ r, firstFreePort bindable lo n = some r ∧ lo ≤ r ∧ r < lo + n ∧
        bindable r = true ∧ ∀ m : Int, lo ≤ m → m < r → bindable m = false := by
  intro n
  induction n with
  | zero =>
      rintro lo ⟨k, hk, -⟩
      omega
  | succ n ih =>
      rintro lo ⟨k, hk, hbk⟩
      by_cases hlo : bindable lo = true
      · refine ⟨lo, ?_, le_refl _, by omega, hlo, ?_⟩
        · simp [firstFreePort, hlo]
        · intro m h1 h2; omega
      · have hk0 : k ≠ 0 := by
          intro h0
          apply hlo
          simpa [h0] using hbk
        have hb1 : bindable (lo + 1 + (↑(k - 1) : Int)) = true := by
          have : lo + 1 + (↑(k - 1) : Int) = lo + k := by
            omega
          rw [this]
          exact hbk
        obtain ⟨r, hr, hr1, hr2, hr3, hr4⟩ :=
          ih (lo + 1) ⟨k - 1, by omega, hb1⟩
        refine ⟨r, ?_, by omega, by omega, hr3, ?_⟩
        · simp [firstFreePort, hlo, hr]
        · intro m h1 h2
          rcases eq_or_lt_of_le h1 with h | h
          · rw [← h]
            simpa using hlo
          · exact hr4 m (by omega) h2

/-- If no candidate among the `n` ports starting at `lo` is bindable,
the probe loop finds nothing. -/
lemma firstFreePort_none (bindable : Int → Bool) :
    ∀ (n : Nat) (lo : Int), (∀ k : Nat, k < n → bindable (lo + k) = false) →
      firstFreePort bindable lo n = none := by
  intro n
  induction n with
  | zero => intro lo _; rfl
  | succ n ih =>
      intro lo h
      have h0 : bindable lo = false := by simpa using h 0 (by omega)
      have h1 : ∀ k : Nat, k < n → bindable (lo + 1 + k) = false := by
        intro k hk
        have : lo + 1 + (k : Int) = lo + (↑(k + 1) : Int) := by push_cast; omega
        rw [this]
        exact h (k + 1) (by omega)
      simp [firstFreePort, h0, ih (lo + 1) h1]

/-- Draining the queue returns exactly the queued envelopes, front first,
and leaves the queue empty. -/
lemma get_all_responses_eq (q : List ResponseEnvelope) :
    get_all_responses q = (q, []) := by
  induction q with
  | nil => rfl
  | cons e rest ih => simp [get_all_responses, ih]

/-- Publishing a list of envelopes one by one appends them in order. -/
lemma foldl_publish (es acc : List ResponseEnvelope) :
    List.foldl publish acc es = acc ++ es := by
  induction es generalizing acc with
  | nil => simp
  | cons e rest ih => simp [publish, ih]

/-- The status update from `"INIT"` moves to `"READY"` exactly when the
poll result matches the prompt regex. -/
lemma readiness_update_init (r : Option ResponseEnvelope) :
    readiness_update "INIT" r = if respMatches r then "READY" else "INIT" := by
  cases r with
  | none => rfl
  | some env =>
      by_cases hm : is_max_prompt_match env.response <;>
        simp [readiness_update, respMatches, hm]

/-- With status already `"READY"` the `while` condition fails at once. -/
lemma readiness_loop_ready (polls : Nat → Option ResponseEnvelope) (wt : Nat) :
    readiness_loop polls "READY" wt = .readyAfter wt := by
  rw [readiness_loop.eq_def]
  simp

/-- One iteration of the readiness loop from status `"INIT"` while the
counter still has budget: a matching poll ends the loop on the next
condition check, any other poll outcome recurses with the counter
incremented. -/
lemma readiness_loop_init_step (polls : Nat → Option ResponseEnvelope) (wt : Nat)
    (h : wt + 1 ≤ 10) :
    readiness_loop polls "INIT" wt =
      if pollMatches polls wt then .readyAfter (wt + 1)
      else readiness_loop polls "INIT" (wt + 1) := by
  rw [readiness_loop.eq_def]
  have h10 : ¬ (wt + 1 > 10) := by omega
  have hne : ¬ (("INIT" : String) = "READY") := by decide
  simp only [if_neg hne, dif_neg h10, readiness_update_init, pollMatches]
  by_cases hm : respMatches (polls wt)
  · simp [hm, readiness_loop_ready]
  · simp [hm]

/-- The eleventh iteration (counter 10 going to 11) always executes
`exit(2)`, even when the poll just matched and the status was set to
`"READY"`. -/
lemma readiness_loop_last (polls : Nat → Option ResponseEnvelope) :
    readiness_loop polls "INIT" 10 =
      .fatalExit 11 (if pollMatches polls 10 then "READY" else "INIT") := by
  rw [readiness_loop.eq_def]
  have hne : ¬ (("INIT" : String) = "READY") := by decide
  simp only [if_neg hne, readiness_update_init, pollMatches]
  simp

/-- Invariant of the readiness loop, parametrised by the remaining
budget `k` (so `wt + k = 10`): from status `"INIT"` at counter `wt`,
* if none of the polls `wt ≤ i < 10` matches, the loop performs its
  eleventh poll and exits fatally with counter 11, the final status
  recording whether that last poll matched;
* if `j` with `wt ≤ j < 10` is the first matching poll, the loop ends
  in `readyAfter (j + 1)`. -/
lemma readiness_loop_invariant (polls : Nat → Option ResponseEnvelope) :
    ∀ (k wt : Nat), wt + k = 10 →
      ((∀ i, wt ≤ i → i < 10 → pollMatches polls i = false) →
        readiness_loop polls "INIT" wt =
          .fatalExit 11 (if pollMatches polls 10 then "READY" else "INIT"))
      ∧ (∀ j, wt ≤ j → j < 10 → pollMatches polls j = true →
          (∀ i, wt ≤ i → i < j → pollMatches polls i = false) →
          readiness_loop polls "INIT" wt = .readyAfter (j + 1)) := by
  intro k
  induction k with
  | zero =>
      intro wt hwt
      have hwt10 : wt = 10 := by omega
      subst hwt10
      constructor
      · intro _
        exact readiness_loop_last polls
      · intro j h1 h2
        omega
  | succ k ih =>
      intro wt hwt
      have hstep := readiness_loop_init_step polls wt (by omega)
      have hih := ih (wt + 1) (by omega)
      constructor
      · intro hall
        have hwtf : pollMatches polls wt = false := hall wt (le_refl wt) (by omega)
        rw [hstep, if_neg (by simp [hwtf])]
        exact hih.1 (fun i h1 h2 => hall i (by omega) h2)
      · intro j h1 h2 hj hmin
        rcases eq_or_lt_of_le h1 with h | h
        · subst h
          rw [hstep, if_pos hj]
        · have hwtf : pollMatches polls wt = false := hmin wt (le_refl wt) h
          rw [hstep, if_neg (by simp [hwtf])]
          exact hih.2 j (by omega) h2 hj (fun i hi1 hi2 => hmin i (by omega) hi2)

/-- Running the readiness protocol against a stream that delivers a
single envelope on the first poll and nothing afterwards: the loop ends
ready after one poll when the envelope matches the prompt regex, and
otherwise polls 11 times and exits fatally. -/
lemma readiness_single_poll (env : ResponseEnvelope) :
    start_instance_readiness (fun i => if i = 0 then some env else none) =
      if is_max_prompt_match env.response then .readyAfter 1
      else .fatalExit 11 "INIT" := by
  by_cases hm : is_max_prompt_match env.response
  · rw [if_pos hm]
    have h := (readiness_loop_invariant (fun i => if i = 0 then some env else none) 10 0
      rfl).2 0 (le_refl 0) (by omega)
      (by simp [pollMatches, respMatches, hm])
      (fun i h1 h2 => absurd h2 (by omega))
    exact h
  · rw [if_neg hm]
    have hall : ∀ i, 0 ≤ i → i < 10 →
        pollMatches (fun i => if i = 0 then some env else none) i = false := by
      intro i _ _
      rcases Nat.eq_zero_or_pos i with h0 | h0
      · subst h0
        simp [pollMatches, respMatches, hm]
      · have hne : i ≠ 0 := by omega
        simp [pollMatches, respMatches, hne]
    have h := (readiness_loop_invariant (fun i => if i = 0 then some env else none) 10 0
      rfl).1 hall
    simpa [start_instance_readiness, pollMatches, respMatches] using h

/-! ### Claim theorems -/

/-- Claim C1 (corrected) counterexample.  With no envelope ever
dequeued, the readiness loop does not stop after the configured maximum
of 10 polling cycles: it performs an eleventh poll (the counter check
`wait_time > 10` runs after the increment) and only then exits fatally,
status still `"INIT"`. -/
theorem readiness_eleven_polls_counterexample :
    start_instance_readiness (fun _ => none) = .fatalExit 11 "INIT" ∧ 11 ≠ 10 := by
  constructor
  · have h := (readiness_loop_invariant (fun _ => none) 10 0 rfl).1
      (fun i _ _ => rfl)
    simpa [start_instance_readiness, pollMatches, respMatches] using h
  · decide

/-- Claim C1 (corrected, amended).  The readiness protocol ends READY
if and only if the first envelope whose response matches the marker
pattern (anchored at the start of the text) is dequeued within the
first ten polls; the wait counter increments on every poll, arrived or
not; when no match occurs in the first ten polls the loop performs an
eleventh poll and then aborts startup fatally via `exit(2)` — after 11
cycles, not 10 — with the status string recording whether that final
poll matched. -/
theorem readiness_protocol_amended (polls : Nat → Option ResponseEnvelope) :
    ((∀ i, i < 10 → pollMatches polls i = false) →
        start_instance_readiness polls =
          .fatalExit 11 (if pollMatches polls 10 then "READY" else "INIT"))
    ∧ (∀ j, j < 10 → pollMatches polls j = true →
        (∀ i, i < j → pollMatches polls i = false) →
        start_instance_readiness polls = .readyAfter (j + 1)) := by
  have h := readiness_loop_invariant polls 10 0 rfl
  constructor
  · intro hall
    exact h.1 (fun i _ hi => hall i hi)
  · intro j hj hjm hmin
    exact h.2 j (Nat.zero_le j) hj hjm (fun i _ hi => hmin i hi)

/-- Claim C1 witness: a stream whose every poll yields an envelope whose
response starts with the marker makes the protocol READY after one
poll. -/
theorem readiness_protocol_amended_witness :
    start_instance_readiness
        (fun _ => some { address := ("127.0.0.1", 37455), command := "c",
                         response := "%i1 ready" }) = .readyAfter 1 :=
  (readiness_protocol_amended _).2 0 (by omega) (by decide)
    (fun i hi => absurd hi (Nat.not_lt_zero i))

/-- Claim C4 (corrected) counterexample.  The response `"x%i1"` contains
the marker text `%i1` as a substring, yet the readiness protocol does
not reach READY on it: `re.match` anchors at the start of the string
(and the parentheses in `r"(%i1)"` are a capture group, not literal
text), so a mid-string marker is not matched and the loop exits
fatally. -/
theorem ready_marker_search_counterexample :
    substrContains "%i1".data "x%i1".data = true ∧
    is_max_prompt_match "x%i1" = false ∧
    start_instance_readiness
        (fun i => if i = 0 then
          some { address := ("127.0.0.1", 37455), command := "c", response := "x%i1" }
          else none) = .fatalExit 11 "INIT" := by
  refine ⟨by decide, by decide, ?_⟩
  rw [readiness_single_poll]
  simp [is_max_prompt_match]

/-- Claim C4 (corrected, amended).  A dequeued envelope transitions the
state to READY exactly when the marker pattern matches at the START of
its response text (the anchored `re.match` of `%i1`), not anywhere in
it. -/
theorem ready_marker_start_anchored (env : ResponseEnvelope)
    (h : is_max_prompt_match env.response = true) :
    start_instance_readiness (fun i => if i = 0 then some env else none) =
      .readyAfter 1 := by
  rw [readiness_single_poll, if_pos h]

/-- Claim C4 witness: an envelope whose response starts with the marker
makes the protocol READY on the first poll. -/
theorem ready_marker_start_anchored_witness :
    start_instance_readiness
        (fun i => if i = 0 then
          some { address := ("127.0.0.1", 37455), command := "c", response := "%i1 " }
          else none) = .readyAfter 1 :=
  ready_marker_start_anchored
    { address := ("127.0.0.1", 37455), command := "c", response := "%i1 " } (by decide)

/-- Claim C2 (code bug).  The spec says a busy single port raises
`NoFreePort` after one probe, and a range with no bindable port also
raises `NoFreePort`.  The range half is what the code does, but in the
single-port branch the error path raises an uncaught `TypeError`
instead: the log f-string subscripts the integer (`port_range[0]`), so
neither the log message nor `exit(2)` is reached.  This theorem
evaluates the embedded code at both failing inputs. -/
theorem select_single_busy_raises_type_error :
    select_free_port (fun _ => false) (.int 64000) = .typeError ∧
    select_free_port (fun _ => false) (.tuple [.int 64000, .int 64100]) = .exitNoFreePort := by
  constructor
  · rfl
  · rfl

/-- Claim C3 (confirmed).  A bindable single port is returned as is,
and on a range `[lo, hi)` containing a bindable port the method probes
in ascending order and returns the lowest bindable port of the range
(every smaller port in the range is not bindable). -/
theorem select_free_port_returns_first_free
    (bindable : Int → Bool) (p lo hi k : Int)
    (hp : bindable p = true) (hlo : lo ≤ k) (hhi : k < hi) (hbk : bindable k = true) :
    select_free_port bindable (.int p) = .ok p ∧
    ∃ r, select_free_port bindable (.tuple [.int lo, .int hi]) = .ok r ∧
      lo ≤ r ∧ r < hi ∧ bindable r = true ∧
      ∀ m, lo ≤ m → m < r → bindable m = false := by
  constructor
  · simp [select_free_port, hp]
  · have hex : ∃ kn : Nat, kn < (hi - lo).toNat ∧ bindable (lo + kn) = true := by
      refine ⟨(k - lo).toNat, by omega, ?_⟩
      have hk : lo + ((k - lo).toNat : Int) = k := by omega
      rw [hk]
      exact hbk
    obtain ⟨r, hr, hr1, hr2, hr3, hr4⟩ :=
      firstFreePort_spec bindable ((hi - lo).toNat) lo hex
    refine ⟨r, ?_, hr1, by omega, hr3, hr4⟩
    simp [select_free_port, hr]

/-- Claim C3 witness: with only port 5 bindable, a single-port request
for 5 succeeds and the range `[3, 8)` yields 5, the least bindable. -/
theorem select_free_port_returns_first_free_witness :
    select_free_port (fun n => n == 5) (.int 5) = .ok 5 ∧
    ∃ r, select_free_port (fun n => n == 5) (.tuple [.int 3, .int 8]) = .ok r ∧
      3 ≤ r ∧ r < 8 ∧ (fun n : Int => n == 5) r = true ∧
      ∀ m, 3 ≤ m → m < r → (fun n : Int => n == 5) m = false :=
  select_free_port_returns_first_free (fun n => n == 5) 5 3 8 5
    (by decide) (by decide) (by decide) (by decide)

/-- Claim C6 (confirmed).  `get_all_responses` never blocks and returns
every queued envelope in FIFO order leaving the queue empty; a second
call with no intervening publish returns the empty list; and envelopes
published in some order are returned in that same order. -/
theorem get_all_responses_drains_fifo :
    (∀ q, get_all_responses q = (q, [])) ∧
    (∀ q, get_all_responses (get_all_responses q).2 = ([], [])) ∧
    (∀ es, get_all_responses (List.foldl publish [] es) = (es, [])) := by
  refine ⟨get_all_responses_eq, ?_, ?_⟩
  · intro q
    rw [get_all_responses_eq q]
    rfl
  · intro es
    rw [foldl_publish]
    simpa using get_all_responses_eq es

/-- Claim C5 (corrected) counterexample.  A non-empty byte chunk that
is not valid UTF-8 does not produce an envelope: `data.decode("utf-8")`
raises `UnicodeDecodeError`, which no `except` clause of
`_handle_client` catches, so the session publishes nothing and dies. -/
theorem handle_chunk_invalid_utf8_counterexample :
    ([0xFF] : List UInt8) ≠ [] ∧
    handle_chunk default_handler ("127.0.0.1", 50302) [0xFF] =
      .error .unicodeDecodeError := by
  constructor
  · decide
  · rfl

/-- Claim C5 (corrected, amended).  For every non-empty byte chunk that
decodes as UTF-8 text, the session publishes exactly one envelope whose
command is the decoded text with surrounding whitespace trimmed and
whose response is the handler applied to that command, and writes
nothing back to the peer socket; the default handler produces the
command prefixed with the fixed marker. -/
theorem handle_chunk_publishes_one_envelope (handler : String → String)
    (address : String × Int) (data : List UInt8) (txt : String)
    (hne : data ≠ []) (hdec : bytes_decode_utf8 data = some txt) :
    handle_chunk handler address data =
      .ok ([{ address := address, command := txt.trim,
              response := handler txt.trim }], []) ∧
    default_handler txt.trim = "Received: " ++ txt.trim := by
  constructor
  · cases data with
    | nil => exact absurd rfl hne
    | cons b bs => simp [handle_chunk, hdec]
  · rfl

/-- Claim C5 witness: the chunk `b"  hi\n"` yields exactly the envelope
with command `"hi"` and default response `"Received: hi"`, and no bytes
sent back. -/
theorem handle_chunk_publishes_one_envelope_witness :
    handle_chunk default_handler ("127.0.0.1", 50302) [32, 32, 104, 105, 10] =
      .ok ([{ address := ("127.0.0.1", 50302), command := "  hi\n".trim,
              response := default_handler ("  hi\n".trim) }], []) ∧
    default_handler ("  hi\n".trim) = "Received: " ++ "  hi\n".trim :=
  handle_chunk_publishes_one_envelope default_handler ("127.0.0.1", 50302)
    [32, 32, 104, 105, 10] "  hi\n" (by decide) (by decide)

/-- Claim C7 (confirmed).  On a started server (running flag set,
listening socket present, acceptor thread attribute assigned), `stop`
succeeds, clears the running flag, closes the listening socket, joins
the acceptor with the bounded 2-second timeout, and after it the
acceptor loop exits instead of accepting; calling `stop` again also
succeeds (closing a closed socket and joining a dead thread do not
raise), so `stop` is idempotent. -/
theorem stop_idempotent_on_started (s : MaximaServerState)
    (_hrun : s.server_running = true)
    (hsock : ∃ sock, s.server_socket = some sock)
    (hthr : s.server_thread_attr = some ()) :
    ∃ s1, stop s = .ok (s1, some 2) ∧
      s1.server_running = false ∧
      (∃ sock, s1.server_socket = some sock ∧ sock.closed = true) ∧
      accept_step s1 = .exitLoop ∧
      ∃ s2, stop s1 = .ok (s2, some 2) ∧ s2.server_running = false ∧
        accept_step s2 = .exitLoop := by
  obtain ⟨sock, hs⟩ := hsock
  refine ⟨{ s with server_running := false, server_socket := some { sock with closed := true } },
    ?_, rfl, ⟨{ sock with closed := true }, rfl, rfl⟩, ?_, ?_⟩
  · simp [stop, hs, hthr]
  · simp [accept_step]
  · refine ⟨{ s with server_running := false, server_socket := some { sock with closed := true } },
      ?_, rfl, ?_⟩
    · simp [stop, hthr]
    · simp [accept_step]

/-- Claim C7 witness: a concrete started server. -/
theorem stop_idempotent_on_started_witness :
    ∃ s1, stop { port_range := .int 64000
                 host := "localhost"
                 server_socket := some { closed := false }
                 server_thread := none
                 server_running := true
                 port := some 64000
                 maxima_path := "/usr/bin/maxima"
                 maxima_status := none
                 response_queue := []
                 server_thread_attr := some () } = .ok (s1, some 2) ∧
      s1.server_running = false ∧
      (∃ sock, s1.server_socket = some sock ∧ sock.closed = true) ∧
      accept_step s1 = .exitLoop ∧
      ∃ s2, stop s1 = .ok (s2, some 2) ∧ s2.server_running = false ∧
        accept_step s2 = .exitLoop :=
  stop_idempotent_on_started _ rfl ⟨{ closed := false }, rfl⟩ rfl

/-- Claim C8 (confirmed).  The constructor validates the engine path
eagerly: an unresolvable path makes `__init__` raise
`FileNotFoundError` immediately (no retry), and a resolvable path is
replaced in the stored state by the resolved path returned by the
search-path lookup. -/
theorem init_validates_executable (which : String → Option String)
    (port_range : PortArg) (host maxima_path : String) :
    (which maxima_path = none →
      maxima_server_init which port_range host maxima_path =
        .error .fileNotFoundError)
    ∧ (∀ resolved, which maxima_path = some resolved →
        ∃ s, maxima_server_init which port_range host maxima_path = .ok s ∧
          s.maxima_path = resolved) := by
  constructor
  · intro h
    simp [maxima_server_init, h]
  · intro r h
    refine ⟨{ port_range := port_range
              host := host
              server_socket := none
              server_thread := none
              server_running := false
              port := none
              maxima_path := r
              maxima_status := none
              response_queue := []
              server_thread_attr := none }, ?_, rfl⟩
    simp [maxima_server_init, h]

/-- Claim C8 witness: both branches at concrete lookup functions. -/
theorem init_validates_executable_witness :
    maxima_server_init (fun _ => none) (.int 64000) "localhost" "maxima" =
      .error .fileNotFoundError ∧
    ∃ s, maxima_server_init (fun _ => some "/usr/bin/maxima") (.int 64000)
        "localhost" "maxima" = .ok s ∧ s.maxima_path = "/usr/bin/maxima" :=
  ⟨(init_validates_executable (fun _ => none) (.int 64000) "localhost" "maxima").1 rfl,
   (init_validates_executable (fun _ => some "/usr/bin/maxima") (.int 64000)
      "localhost" "maxima").2 "/usr/bin/maxima" rfl⟩

/-- Claim C9 (corrected) counterexample.  A malformed port range (a
three-element tuple, neither a single integer nor a two-element tuple
of integers) is NOT rejected at construction time: `__init__` stores it
unvalidated and succeeds. -/
theorem malformed_range_accepted_at_construction :
    wellFormedRange (.tuple [.int 1, .int 2, .int 3]) = false ∧
    ∃ s, maxima_server_init (fun _ => some "/usr/bin/maxima")
        (.tuple [.int 1, .int 2, .int 3]) "localhost" "maxima" = .ok s ∧
      s.port_range = .tuple [.int 1, .int 2, .int 3] :=
  ⟨rfl, ⟨_, rfl, rfl⟩⟩

/-- Claim C9 (corrected, amended).  Malformed port ranges are rejected
as an error, but only when `_select_free_port` runs during startup
(`start_instance` → `_create_server_socket`), not at construction: the
constructor stores the malformed range and succeeds, and the later port
selection exits with the invalid-range error. -/
theorem malformed_range_rejected_at_startup (bindable : Int → Bool) (pr : PortArg)
    (hpr : wellFormedRange pr = false)
    (which : String → Option String) (host mp resolved : String)
    (hw : which mp = some resolved) :
    select_free_port bindable pr = .exitInvalidRange ∧
    ∃ s, maxima_server_init which pr host mp = .ok s ∧ s.port_range = pr ∧
      create_server_socket bindable s = none := by
  have hsel : select_free_port bindable pr = .exitInvalidRange := by
    rcases pr with n | xs
    · simp [wellFormedRange] at hpr
    · rcases xs with _ | ⟨a, _ | ⟨b, _ | ⟨c, rest⟩⟩⟩
      · rfl
      · rfl
      · rcases a with a | _
        · rcases b with b | _
          · simp [wellFormedRange] at hpr
          · rfl
        · rfl
      · have hlen : (a :: b :: c :: rest).length ≠ 2 := by simp
        simp [select_free_port, hlen]
  refine ⟨hsel, { port_range := pr
                  host := host
                  server_socket := none
                  server_thread := none
                  server_running := false
                  port := none
                  maxima_path := resolved
                  maxima_status := none
                  response_queue := []
                  server_thread_attr := none }, ?_, rfl, ?_⟩
  · simp [maxima_server_init, hw]
  · simp [create_server_socket, hsel]

/-- Claim C9 witness: the three-element tuple range passes construction
and is rejected by port selection at startup. -/
theorem malformed_range_rejected_at_startup_witness :
    select_free_port (fun _ => true) (.tuple [.int 1, .int 2, .int 3]) =
      .exitInvalidRange ∧
    ∃ s, maxima_server_init (fun _ => some "/usr/bin/maxima")
        (.tuple [.int 1, .int 2, .int 3]) "localhost" "maxima" = .ok s ∧
      s.port_range = .tuple [.int 1, .int 2, .int 3] ∧
      create_server_socket (fun _ => true) s = none :=
  malformed_range_rejected_at_startup (fun _ => true)
    (.tuple [.int 1, .int 2, .int 3]) rfl (fun _ => some "/usr/bin/maxima")
    "localhost" "maxima" "/usr/bin/maxima" rfl

/-- Claim C10 (confirmed).  On a server that was constructed but never
started, `stop` raises `AttributeError`: it reads `self._server_thread`,
an attribute only `_create_server_socket` assigns, while the
constructor assigns the differently named `self.server_thread`. -/
theorem stop_before_start_raises_attribute_error
    (which : String → Option String) (pr : PortArg) (host mp : String)
    (s : MaximaServerState)
    (h : maxima_server_init which pr host mp = .ok s) :
    stop s = .error .attributeError := by
  cases hw : which mp with
  | none => simp [maxima_server_init, hw] at h
  | some r =>
      simp [maxima_server_init, hw] at h
      cases h
      rfl

/-- Claim C10 witness: `stop` on the freshly constructed state. -/
theorem stop_before_start_raises_attribute_error_witness :
    stop { port_range := .int 64000
           host := "localhost"
           server_socket := none
           server_thread := none
           server_running := false
           port := none
           maxima_path := "/usr/bin/maxima"
           maxima_status := none
           response_queue := []
           server_thread_attr := none } =
      .error .attributeError :=
  stop_before_start_raises_attribute_error (fun _ => some "/usr/bin/maxima")
    (.int 64000) "localhost" "maxima" _ rfl

end MaximaPie
